import Mathlib

/-!
Verification development for the TypeTrace keystroke-capture daemon.

The repository carries two implementations of the backend core: a C one
(`src/src/*.c`) and a C++ one (`src/src/*.cpp`, `src/typetrace/...`).  The
definitions below are shallow embeddings of the functions the claims cite,
translated from the sources:

* `common.h` constants and the `error_code` enumeration;
* the SQL layer: `UPSERT_KEYSTROKE_SQL` applied to a relational state keyed
  by the `UNIQUE(scan_code, date)` constraint of `CREATE_KEYSTROKES_TABLE_SQL`;
* `database.c`: `db_write_buffer_to_database`, `db_execute_batch_insert`,
  `db_add_to_buffer`, `db_check_and_flush_buffer`, `db_init_buffer`,
  `db_cleanup_buffer`;
* `database.cpp`: `DatabaseManager::writeToDatabase`, with the documented
  SQLiteCpp `Transaction` semantics (BEGIN at construction, COMMIT only when
  `commit()` is called, ROLLBACK in the destructor otherwise);
* `eventhandler.cpp`: `trace`, `shouldFlush`, `flushBuffer`,
  `processKeyboardEvent`, `checkDeviceAccessibility`;
* `permission_check.c`: `perm_check_device_accessibility`;
* `paths.c`: `paths_resolve_db_path`; `cli.cpp`: `Cli::getDatabaseDir`,
  `Cli::parseArguments`; `main.c`: `process_arguments`, `signal_handler`.

Interactions with the outside world (SQLite return codes, `clock_gettime`,
allocation, `libinput` dispatch) are abstracted as boolean oracles passed to
the embedded functions, so that every control path of the source is a
reachable path of the model.
-/

namespace TypeTrace

/-- Constants from `common.h` and `constants.hpp`. -/
def BUFFER_SIZE : Nat := 50

/-- Flush timeout in seconds, from `common.h` and `constants.hpp`. -/
def BUFFER_TIMEOUT : Nat := 100

/-- Poll timeout in milliseconds, from `common.h` and `constants.hpp`. -/
def POLL_TIMEOUT_MS : Nat := 100

/-- Maximum key-name length (array size, including NUL), from `common.h`. -/
def KEY_NAME_MAX_LENGTH : Nat := 32

/-- Maximum path length, from `common.h`. -/
def MAX_PATH_LENGTH : Nat := 4096

/-- Directory name component, from `common.h` and `constants.hpp`. -/
def PROJECT_DIR_NAME : String := "typetrace"

/-- Database file name, from `common.h` and `constants.hpp`. -/
def DB_FILE_NAME : String := "TypeTrace.db"

/-- Error codes: the `error_code` enumeration of `common.h`, in declaration
order starting at 0. -/
def OK : Nat := 0

/-- `WRONG_ARGUMENT` from the `error_code` enumeration of `common.h`. -/
def WRONG_ARGUMENT : Nat := 1

/-- `UDEV_FAILED` from the `error_code` enumeration of `common.h`. -/
def UDEV_FAILED : Nat := 2

/-- `LIBINPUT_FAILED` from the `error_code` enumeration of `common.h`. -/
def LIBINPUT_FAILED : Nat := 3

/-- `SEAT_FAILED` from the `error_code` enumeration of `common.h`. -/
def SEAT_FAILED : Nat := 4

/-- `BUFFER_ERROR` from the `error_code` enumeration of `common.h`. -/
def BUFFER_ERROR : Nat := 5

/-- `PERMISSION_ERROR` from the `error_code` enumeration of `common.h`. -/
def PERMISSION_ERROR : Nat := 6

/-- `NO_DEVICES_ERROR` from the `error_code` enumeration of `common.h`. -/
def NO_DEVICES_ERROR : Nat := 7

/-- `INFORMATION_EXIT` from the `error_code` enumeration of `common.h`. -/
def INFORMATION_EXIT : Nat := 8

/-- The transient keystroke record (`keystroke_event_t` of `common.h`,
`KeystrokeEvent` of `types.hpp`): scan code, symbolic name, local date. -/
structure KeystrokeEvent where
  key_code : Nat
  key_name : String
  date : String
deriving DecidableEq

/-- The persistent store, keyed by the `UNIQUE(scan_code, date)` constraint of
`CREATE_KEYSTROKES_TABLE_SQL`: each `(scan_code, date)` pair maps to at most
one `(key_name, count)` row.  The `id` surrogate column is not observable
through the upsert path and is omitted. -/
def Table : Type := Nat × String → Option (String × Nat)

/-- The freshly created `keystrokes` table: no rows. -/
def emptyTable : Table := fun _ => none

/-- One execution of `UPSERT_KEYSTROKE_SQL` (`sql.h` and `sql.hpp`) with
`(scan_code, key_name, date)` bound from the event: insert
`(scan_code, key_name, date, 1)`, and on conflict of `(scan_code, date)` set
`count = count + 1` and `key_name = excluded.key_name`. -/
def upsertKeystroke (tbl : Table) (e : KeystrokeEvent) : Table :=
  fun p =>
    if p = (e.key_code, e.date) then
      match tbl (e.key_code, e.date) with
      | none => some (e.key_name, 1)
      | some (_, c) => some (e.key_name, c + 1)
    else tbl p

/-- Executing the upsert statement once per event, in batch order. -/
def applyBatch (tbl : Table) (events : List KeystrokeEvent) : Table :=
  events.foldl upsertKeystroke tbl

/-- The `count` column of the row for a pair, 0 when the row is absent. -/
def rowCount (tbl : Table) (p : Nat × String) : Nat :=
  match tbl p with
  | none => 0
  | some (_, c) => c

/-- Oracles for the SQLite calls made by `db_write_buffer_to_database`
(`database.c`): success of `sqlite3_open` plus table creation, of
`BEGIN TRANSACTION`, of `sqlite3_prepare_v2`, of `COMMIT`, and per-event
success of `sqlite3_step`. -/
structure WriteOracle where
  openOk : Bool
  beginOk : Bool
  prepareOk : Bool
  commitOk : Bool
  stepOk : KeystrokeEvent → Bool

/-- The oracle on which every SQLite call succeeds. -/
def allOk : WriteOracle :=
  { openOk := true, beginOk := true, prepareOk := true, commitOk := true,
    stepOk := fun _ => true }

/-- `db_execute_batch_insert` of `database.c`: for each event bind and step
the prepared upsert; a failing step is logged and the loop continues with the
next event; the statement is reset between rows. -/
def db_execute_batch_insert (stepOk : KeystrokeEvent → Bool) (tbl : Table)
    (events : List KeystrokeEvent) : Table :=
  events.foldl (fun t e => if stepOk e then upsertKeystroke t e else t) tbl

/-- `db_write_buffer_to_database` of `database.c`: return unchanged on an
empty batch; open the database and ensure the table; `BEGIN`; prepare the
upsert; run `db_execute_batch_insert`; `COMMIT`, rolling back on commit
failure.  Failures before the batch leave the store unchanged. -/
def db_write_buffer_to_database (w : WriteOracle) (tbl : Table)
    (events : List KeystrokeEvent) : Table :=
  if events.isEmpty then tbl
  else if !w.openOk then tbl
  else if !w.beginOk then tbl
  else if !w.prepareOk then tbl
  else if w.commitOk then db_execute_batch_insert w.stepOk tbl events
  else tbl

/-- The SQLiteCpp `SQLite::Transaction` object as used by `database.cpp`: its
constructor executes `BEGIN` (capturing the state to which a rollback would
return), `commit()` marks it committed, and its destructor executes
`ROLLBACK` whenever `commit()` was never called. -/
structure SQLiteTransaction where
  saved : Table
  committed : Bool

/-- Transaction construction: `BEGIN`, not yet committed. -/
def txnBegin (tbl : Table) : SQLiteTransaction :=
  { saved := tbl, committed := false }

/-- Transaction destruction at scope exit: keep the current state when
committed, otherwise roll back to the state captured at `BEGIN`. -/
def txnDestruct (txn : SQLiteTransaction) (current : Table) : Table :=
  if txn.committed then current else txn.saved

/-- The `stmt.exec()` loop of `DatabaseManager::writeToDatabase`
(`database.cpp`): step the prepared upsert once per event; a failing step
throws `SQLite::Exception`, aborting the loop at once. -/
def stmtExecLoop (stepOk : KeystrokeEvent → Bool) :
    Table → List KeystrokeEvent → Except String Table
  | tbl, [] => Except.ok tbl
  | tbl, e :: rest =>
    if stepOk e then stmtExecLoop stepOk (upsertKeystroke tbl e) rest
    else Except.error "Execution failed for batch UPSERT"

/-- Result of `DatabaseManager::writeToDatabase`: the table after the
function returns or throws, and whether it threw `DatabaseError`. -/
structure CppWriteResult where
  table : Table
  threw : Bool

/-- `DatabaseManager::writeToDatabase` of `database.cpp`: return on an empty
buffer; construct an `SQLite::Transaction`; run the bind/exec/reset loop; on
`SQLite::Exception` rethrow as `DatabaseError`.  `transaction.commit()` is
never called in the source, so the transaction destructor runs on every exit
path with `committed = false`. -/
def writeToDatabase (stepOk : KeystrokeEvent → Bool) (tbl : Table)
    (buffer : List KeystrokeEvent) : CppWriteResult :=
  if buffer.isEmpty then { table := tbl, threw := false }
  else
    let txn := txnBegin tbl
    match stmtExecLoop stepOk tbl buffer with
    | Except.error _ => { table := txnDestruct txn tbl, threw := true }
    | Except.ok t => { table := txnDestruct txn t, threw := false }

/-- The static state of the C buffering layer (`database.c`): whether
`keystroke_buffer` is allocated, the buffered events (`buffer_count` is the
length), and the on-disk table the flushes write to.  The monotonic
`buffer_start_time` is abstracted: each call that compares elapsed time with
`BUFFER_TIMEOUT` receives the outcome of that comparison as the boolean
oracle `timedOut`. -/
structure CBufferState where
  bufAllocated : Bool
  events : List KeystrokeEvent
  table : Table

/-- `db_init_buffer` of `database.c`: when the buffer is already allocated do
nothing and report success; otherwise allocate (oracle `allocOk` is the
outcome of `calloc`), reset the count to zero and capture the window start.
Returns the updated state and the boolean result. -/
def db_init_buffer (allocOk : Bool) (s : CBufferState) : CBufferState × Bool :=
  if s.bufAllocated then (s, true)
  else if allocOk then ({ s with bufAllocated := true, events := [] }, true)
  else (s, false)

/-- `db_check_and_flush_buffer` of `database.c`: return at once when the
buffer is unallocated or empty; otherwise flush (write the whole buffer via
`db_write_buffer_to_database`, then reset the count and the window start)
exactly when `force_flush`, or `buffer_count >= BUFFER_SIZE`, or the elapsed
time reached `BUFFER_TIMEOUT`.  The function returns `OK` on every path of
the source, so only the state is modelled. -/
def db_check_and_flush_buffer (force timedOut : Bool) (w : WriteOracle)
    (s : CBufferState) : CBufferState :=
  if !s.bufAllocated || s.events.isEmpty then s
  else if force || decide (BUFFER_SIZE ≤ s.events.length) || timedOut then
    { s with table := db_write_buffer_to_database w s.table s.events,
             events := [] }
  else s

/-- Truncation performed by `add_keystroke_to_buffer` (`database.c`) and by
`processKeyboardEvent` (`eventhandler.cpp`): `key_name` is copied into a
`KEY_NAME_MAX_LENGTH`-byte array, keeping at most the first
`KEY_NAME_MAX_LENGTH - 1` characters. -/
def truncateName (n : String) : String :=
  if n.length ≤ KEY_NAME_MAX_LENGTH - 1 then n
  else ((n.toList.take (KEY_NAME_MAX_LENGTH - 1)).asString)

/-- Result of `db_add_to_buffer`: the state afterwards, the returned error
code, and whether the incoming keystroke was discarded without being stored
(the `else` branch that flushes the full buffer and drops the argument). -/
structure AddResult where
  state : CBufferState
  rc : Nat
  dropped : Bool

/-- `db_add_to_buffer` of `database.c`: allocate the buffer on first use
(failure returns `BUFFER_ERROR`); read the local time (`timeOk` is the
outcome of `get_current_time_info`, failure returns `BUFFER_ERROR`); when
`buffer_count < BUFFER_SIZE` store the (name-truncated, dated) event and fall
through to a non-forced flush check; otherwise force a flush, discarding the
incoming keystroke.  The local date of the event is the one computed at the
moment of the call and arrives here inside `e`. -/
def db_add_to_buffer (e : KeystrokeEvent) (allocOk timeOk timedOut : Bool)
    (w : WriteOracle) (s : CBufferState) : AddResult :=
  let (s0, initOk) := db_init_buffer allocOk s
  if !initOk then { state := s0, rc := BUFFER_ERROR, dropped := false }
  else if !timeOk then { state := s0, rc := BUFFER_ERROR, dropped := false }
  else if s0.events.length < BUFFER_SIZE then
    let s1 := { s0 with
      events := s0.events ++ [{ e with key_name := truncateName e.key_name }] }
    { state := db_check_and_flush_buffer false timedOut w s1, rc := OK,
      dropped := false }
  else
    { state := db_check_and_flush_buffer true timedOut w s0, rc := OK,
      dropped := true }

/-- `db_cleanup_buffer` of `database.c`: when allocated, force a final flush,
free the buffer and reset the count. -/
def db_cleanup_buffer (timedOut : Bool) (w : WriteOracle)
    (s : CBufferState) : CBufferState :=
  if s.bufAllocated then
    let s1 := db_check_and_flush_buffer true timedOut w s
    { s1 with bufAllocated := false, events := [] }
  else s

/-- States of the C buffering layer reachable from a freshly allocated buffer
(`db_init_buffer` succeeded: empty buffer over an arbitrary table) by any
sequence of calls to the public entry points, under arbitrary oracles. -/
inductive CReach : CBufferState → Prop
  | start (t : Table) : CReach { bufAllocated := true, events := [], table := t }
  | add (e : KeystrokeEvent) (allocOk timeOk timedOut : Bool) (w : WriteOracle)
      {s : CBufferState} :
      CReach s → CReach (db_add_to_buffer e allocOk timeOk timedOut w s).state
  | flush (force timedOut : Bool) (w : WriteOracle) {s : CBufferState} :
      CReach s → CReach (db_check_and_flush_buffer force timedOut w s)
  | cleanup (timedOut : Bool) (w : WriteOracle) {s : CBufferState} :
      CReach s → CReach (db_cleanup_buffer timedOut w s)
  | initBuf (allocOk : Bool) {s : CBufferState} :
      CReach s → CReach (db_init_buffer allocOk s).1

/-- The libinput key state observed by the keyboard-event accessors. -/
inductive KeyState where
  | pressed
  | released
deriving DecidableEq

/-- The data the C++ `processKeyboardEvent` reads from a
`LIBINPUT_EVENT_KEYBOARD_KEY` event: whether
`libinput_event_get_keyboard_event` returns non-null, the key state, the key
code, and the `libevdev_event_code_get_name` lookup result (null mapped to
`none`). -/
structure LibKeyboardEvent where
  valid : Bool
  state : KeyState
  key_code : Nat
  raw_name : Option String

/-- An event drained from the libinput queue, classified by
`libinput_event_get_type`. -/
inductive LibinputEvent where
  | keyboardKey (k : LibKeyboardEvent)
  | deviceAdded (keyboardCap : Bool)
  | other

/-- `EventHandler::processKeyboardEvent` of `eventhandler.cpp`: null keyboard
event → none; non-pressed state → none; otherwise build the keystroke with
the symbolic name (`UNKNOWN` when the lookup is null, truncated to the array
bound) and the local date at the moment of the call (`dateNow`). -/
def processKeyboardEvent (dateNow : String) (k : LibKeyboardEvent) :
    Option KeystrokeEvent :=
  if !k.valid then none
  else if k.state ≠ KeyState.pressed then none
  else some
    { key_code := k.key_code,
      key_name := truncateName (k.raw_name.getD "UNKNOWN"),
      date := dateNow }

/-- The state owned by the C++ `EventHandler` that the claims observe: the
coalescing buffer and the store behind the flush callback.  `last_flush_time`
is abstracted into the oracle `timedOut` of each call that compares the
elapsed time with `BUFFER_TIMEOUT`. -/
structure EHState where
  buffer : List KeystrokeEvent
  table : Table

/-- `EventHandler::shouldFlush` of `eventhandler.cpp`: true when
`buffer.size() >= BUFFER_SIZE`; otherwise, when the buffer is non-empty and
the elapsed time since the last flush reached `BUFFER_TIMEOUT` seconds. -/
def shouldFlush (timedOut : Bool) (buffer : List KeystrokeEvent) : Bool :=
  if BUFFER_SIZE ≤ buffer.length then true
  else if !buffer.isEmpty then timedOut
  else false

/-- The event-draining loop inside `EventHandler::trace`: every
`LIBINPUT_EVENT_KEYBOARD_KEY` event whose processing yields a keystroke is
pushed onto the back of the buffer; all other event types are discarded. -/
def tracePushes (dateNow : String) (evs : List LibinputEvent)
    (buf : List KeystrokeEvent) : List KeystrokeEvent :=
  evs.foldl
    (fun b ev =>
      match ev with
      | LibinputEvent.keyboardKey k =>
        match processKeyboardEvent dateNow k with
        | some ks => b ++ [ks]
        | none => b
      | _ => b)
    buf

/-- `EventHandler::flushBuffer` of `eventhandler.cpp`: return on an empty
buffer; when a callback is installed invoke it with the buffer (the callback
is `DatabaseManager::writeToDatabase`, which may throw `DatabaseError`); only
afterwards clear the buffer and update `last_flush_time`.  A throwing
callback therefore leaves `buffer.clear()` unexecuted and propagates.  The
returned boolean records whether the call threw. -/
def flushBuffer (callbackSet : Bool) (stepOk : KeystrokeEvent → Bool)
    (s : EHState) : EHState × Bool :=
  if s.buffer.isEmpty then (s, false)
  else if callbackSet then
    let r := writeToDatabase stepOk s.table s.buffer
    if r.threw then ({ s with table := r.table }, true)
    else ({ buffer := [], table := r.table }, false)
  else ({ s with buffer := [] }, false)

/-- `EventHandler::trace` of `eventhandler.cpp`: poll the libinput fd for up
to `POLL_TIMEOUT_MS`; when readable, dispatch and drain every available
event, pushing each pressed keyboard event; then evaluate `shouldFlush` once
and flush when it holds.  The returned boolean records whether the flush
callback threw (the exception propagates out of `trace`). -/
def trace (pollReady timedOut : Bool) (dateNow : String)
    (evs : List LibinputEvent) (callbackSet : Bool)
    (stepOk : KeystrokeEvent → Bool) (s : EHState) : EHState × Bool :=
  let s1 :=
    if pollReady then { s with buffer := tracePushes dateNow evs s.buffer }
    else s
  if shouldFlush timedOut s1.buffer then flushBuffer callbackSet stepOk s1
  else (s1, false)

/-- The observable inputs of one iteration of the C++ main loop
(`Cli::run`). -/
structure TickInput where
  pollReady : Bool
  timedOut : Bool
  dateNow : String
  evs : List LibinputEvent
  stepOk : KeystrokeEvent → Bool

/-- `Cli::run` of `cli.cpp` over a finite script of tick inputs: the source
loops `while (true) { event_handler->trace(); }` with no handler inside the
loop, so an exception thrown by `trace` leaves the loop at once (it is caught
only in `main`, which prints the error and lets the process exit).  Returns
the final state and whether the loop was terminated by an exception. -/
def runTicks (callbackSet : Bool) : List TickInput → EHState → EHState × Bool
  | [], s => (s, false)
  | i :: rest, s =>
    let r := trace i.pollReady i.timedOut i.dateNow i.evs callbackSet i.stepOk s
    if r.2 then (r.1, true)
    else runTicks callbackSet rest r.1

/-- The `%s/.local/share` fallback of `paths_resolve_db_path` (`paths.c`):
used when `XDG_DATA_HOME` is unset or empty; fails when `HOME` is unset or
empty.  (The intermediate `snprintf` into a `MAX_PATH_LENGTH` buffer is exact
for every value short enough to pass the final length check below.) -/
def homeFallback : Option String → Option String
  | some h => if h ≠ "" then some (h ++ "/.local/share") else none
  | none => none

/-- The final `snprintf(buffer, size, "%s/%s/%s", data_dir, PROJECT_DIR_NAME,
DB_FILE_NAME)` of `paths_resolve_db_path`, with its buffer-overflow check:
fails when no data directory was resolved or when the composed path does not
fit the `MAX_PATH_LENGTH` buffer. -/
def dataDirToPath : Option String → Option String
  | none => none
  | some d =>
    let full := d ++ "/" ++ PROJECT_DIR_NAME ++ "/" ++ DB_FILE_NAME
    if full.length < MAX_PATH_LENGTH then some full else none

/-- `paths_resolve_db_path` of `paths.c` as a function of the two environment
variables it reads: use `XDG_DATA_HOME` when set and non-empty, else
`HOME ++ "/.local/share"` when `HOME` is set and non-empty, else fail; the
result is `data_dir/PROJECT_DIR_NAME/DB_FILE_NAME`, failing when it does not
fit the `MAX_PATH_LENGTH` buffer. -/
def paths_resolve_db_path : Option String → Option String → Option String
  | some d, home =>
    if d ≠ "" then dataDirToPath (some d)
    else dataDirToPath (homeFallback home)
  | none, home => dataDirToPath (homeFallback home)

/-- `operator/` of `std::filesystem::path` for the relative components
appended by `cli.cpp`: appending to an empty path yields the component, and a
separator is inserted unless one is already trailing. -/
def pathAppend (a b : String) : String :=
  if a = "" then b
  else if a.endsWith "/" then a ++ b
  else a ++ "/" ++ b

/-- `Cli::getDatabaseDir` of `cli.cpp` as a function of the two environment
variables it reads: when `getenv("XDG_DATA_HOME")` is non-null (even when the
value is empty) return `xdg / PROJECT_DIR_NAME`; otherwise, when `HOME` is
non-null, return `home / ".local" / "share" / PROJECT_DIR_NAME`; otherwise
throw `std::runtime_error` (modelled as `none`). -/
def getDatabaseDir (xdg home : Option String) : Option String :=
  match xdg with
  | some d => some (pathAppend d PROJECT_DIR_NAME)
  | none =>
    match home with
    | some h =>
      some (pathAppend (pathAppend (pathAppend h ".local") "share")
        PROJECT_DIR_NAME)
    | none => none

/-- The database file used by `DatabaseManager` (`database.cpp`):
`db_dir / DB_FILE_NAME`. -/
def dbFileOfDir (dir : String) : String := pathAppend dir DB_FILE_NAME

/-- Whether a drained startup event is `LIBINPUT_EVENT_DEVICE_ADDED`. -/
def isDeviceAdded : LibinputEvent → Bool
  | LibinputEvent.deviceAdded _ => true
  | _ => false

/-- Whether a drained startup event is a `DEVICE_ADDED` whose device
advertises `LIBINPUT_DEVICE_CAP_KEYBOARD`. -/
def isKeyboardAdded : LibinputEvent → Bool
  | LibinputEvent.deviceAdded cap => cap
  | _ => false

/-- `perm_check_device_accessibility` of `permission_check.c` (with
`enumerate_devices` and `process_device_added_event` folded in): a null
context or a failed dispatch yields `LIBINPUT_FAILED`; otherwise every queued
event is drained, recording whether any `DEVICE_ADDED` appeared and whether
any added device has the KEYBOARD capability; no device at all and no
keyboard-capable device both yield `NO_DEVICES_ERROR`; else `OK`. -/
def perm_check_device_accessibility (liValid dispatchOk : Bool)
    (evs : List LibinputEvent) : Nat :=
  if !liValid then LIBINPUT_FAILED
  else if !dispatchOk then LIBINPUT_FAILED
  else if !(evs.any isDeviceAdded) then NO_DEVICES_ERROR
  else if !(evs.any isKeyboardAdded) then NO_DEVICES_ERROR
  else OK

/-- `EventHandler::checkDeviceAccessibility` of `eventhandler.cpp`: a null
context or a failed dispatch throws `SystemError`; then exactly one event is
taken from the queue, and the check succeeds exactly when that event exists
and its type is `LIBINPUT_EVENT_DEVICE_ADDED` — the KEYBOARD capability of
the device is never inspected. -/
def checkDeviceAccessibility (liValid dispatchOk : Bool)
    (evs : List LibinputEvent) : Except String Unit :=
  if !liValid then Except.error "Libinput is not initialized."
  else if !dispatchOk then Except.error "Failed to dispatch libinput events."
  else
    match evs.head? with
    | some (LibinputEvent.deviceAdded _) => Except.ok ()
    | _ => Except.error "No input devices found or not accessible."

/-- Outcome of CLI argument parsing: terminate the process with an exit
status, or proceed into the daemon with the final debug flag. -/
inductive ParseOutcome where
  | exitWith (code : Nat)
  | proceed (debug : Bool)
deriving DecidableEq

/-- `Cli::parseArguments` of `cli.cpp`, over the argument tokens after the
program name: `-h`/`--help` prints usage and calls `std::exit(0)`;
`-v`/`--version` prints the version and calls `std::exit(0)`; `-d`/`--debug`
sets the debug flag and continues; anything else prints the unknown option
plus usage and calls `std::exit(1)`. -/
def parseArguments : List String → Bool → ParseOutcome
  | [], dbg => ParseOutcome.proceed dbg
  | arg :: rest, dbg =>
    if arg = "-h" || arg = "--help" then ParseOutcome.exitWith 0
    else if arg = "-v" || arg = "--version" then ParseOutcome.exitWith 0
    else if arg = "-d" || arg = "--debug" then parseArguments rest true
    else ParseOutcome.exitWith 1

/-- An option token as classified by `getopt_long(argc, argv, "vhd", ...)`
in `process_arguments` (`main.c`). -/
inductive COpt where
  | optV
  | optH
  | optD
  | optUnknown
deriving DecidableEq

/-- The `getopt_long` loop of `process_arguments` (`main.c`) over the
classified option tokens, with the current debug flag: `-v` prints the
version and returns `INFORMATION_EXIT`; `-h` prints the help and returns
`INFORMATION_EXIT`; `-d` sets debug mode and continues; an unknown option
returns `WRONG_ARGUMENT`.  GNU argument permutation moves the non-option
arguments behind the options, so after the loop the function returns
`WRONG_ARGUMENT` when any non-option argument remains, else `OK`. -/
def process_arguments_loop : List COpt → Bool → Nat → Nat × Bool
  | [], dbg, npos =>
    if npos > 0 then (WRONG_ARGUMENT, dbg) else (OK, dbg)
  | o :: rest, dbg, npos =>
    match o with
    | COpt.optV => (INFORMATION_EXIT, dbg)
    | COpt.optH => (INFORMATION_EXIT, dbg)
    | COpt.optD => process_arguments_loop rest true npos
    | COpt.optUnknown => (WRONG_ARGUMENT, dbg)

/-- `process_arguments` of `main.c`: run the option loop over the option
tokens (in command-line order) with `npos` trailing non-option arguments;
`debug_mode` starts false. -/
def process_arguments (opts : List COpt) (npos : Nat) : Nat × Bool :=
  process_arguments_loop opts false npos

/-- The exit status of the C backend for a command line that only reaches
`process_arguments`: `main` returns the result of `process_arguments` as the
process exit status whenever it is not `OK` (`main.c` line 353-356). -/
def main_exit_on_args (opts : List COpt) (npos : Nat) : Option Nat :=
  let r := process_arguments opts npos
  if r.1 ≠ OK then some r.1 else none

/-- The observable work items performed by the C signal handler, in source
order. -/
inductive HandlerAction where
  | printMessage
  | dbFlush
  | setRunningFalse
deriving DecidableEq

/-- The process state touched by `signal_handler` (`main.c`): the
`s_exiting` static latch, the atomic `running` flag, and the buffering-layer
state reached through `db_check_and_flush_buffer`. -/
structure SigState where
  s_exiting : Bool
  running : Bool
  buf : CBufferState

/-- `signal_handler` of `main.c`: the `s_exiting` latch absorbs every call
after the first; a first call prints the shutdown message, calls
`db_check_and_flush_buffer(true)` — a forced flush, hence database I/O,
executed inside the signal handler — and only then sets `running` to false.
The returned list records the actions performed by the call. -/
def signal_handler (timedOut : Bool) (w : WriteOracle) (st : SigState) :
    SigState × List HandlerAction :=
  if st.s_exiting then (st, [])
  else
    ({ s_exiting := true, running := false,
       buf := db_check_and_flush_buffer true timedOut w st.buf },
     [HandlerAction.printMessage, HandlerAction.dbFlush,
      HandlerAction.setRunningFalse])

/-- The flush call `run_event_loop` (`main.c`) performs after `running` is
observed false, directly before `cleanup_input`: it is
`db_check_and_flush_buffer(false)` — a non-forced check, not a forced
flush. -/
def run_event_loop_final_flush (timedOut : Bool) (w : WriteOracle)
    (s : CBufferState) : CBufferState :=
  db_check_and_flush_buffer false timedOut w s

/-- The compound key of an event under the `UNIQUE(scan_code, date)`
constraint. -/
def eventPair (e : KeystrokeEvent) : Nat × String := (e.key_code, e.date)

/-- Boolean test used to select the events of a batch that target a pair. -/
def matchesPair (p : Nat × String) (e : KeystrokeEvent) : Bool :=
  decide (eventPair e = p)

/-- Concrete press of `KEY_A` (scan code 30), as in the end-to-end scenarios
of the spec. -/
def evA : KeystrokeEvent :=
  { key_code := 30, key_name := "KEY_A", date := "2024-01-01" }

/-- A later press of scan code 30 whose symbolic name has evolved. -/
def evA2 : KeystrokeEvent :=
  { key_code := 30, key_name := "OTHER_NAME", date := "2024-01-01" }

/-- Concrete press of scan code 31. -/
def evB : KeystrokeEvent :=
  { key_code := 31, key_name := "KEY_S", date := "2024-01-01" }

/-- Concrete press of scan code 32. -/
def evC : KeystrokeEvent :=
  { key_code := 32, key_name := "KEY_D", date := "2024-01-01" }

/-- The compound key of `evA`, `evA2`. -/
def pairA : Nat × String := (30, "2024-01-01")

/-- A step oracle on which exactly the events with scan code 31 fail. -/
def stepNotB : KeystrokeEvent → Bool := fun e => decide (e.key_code ≠ 31)

/-- A drained keyboard event in the PRESSED state for scan code 30. -/
def pressedA : LibKeyboardEvent :=
  { valid := true, state := KeyState.pressed, key_code := 30,
    raw_name := some "KEY_A" }

/-- A quiet tick whose elapsed time reached the flush timeout, over a store
on which every step fails. -/
def failTick : TickInput :=
  { pollReady := false, timedOut := true, dateNow := "2024-01-01",
    evs := [], stepOk := fun _ => false }

theorem upsert_at_pair (tbl : Table) (e : KeystrokeEvent) :
    upsertKeystroke tbl e (eventPair e)
      = some (e.key_name, rowCount tbl (eventPair e) + 1) := by
  unfold upsertKeystroke rowCount eventPair
  cases tbl (e.key_code, e.date) <;> simp

theorem upsert_at_other (tbl : Table) (e : KeystrokeEvent) (p : Nat × String)
    (h : p ≠ eventPair e) : upsertKeystroke tbl e p = tbl p := by
  unfold upsertKeystroke
  simp only [eventPair] at h
  simp [h]

theorem rowCount_upsert_self (tbl : Table) (e : KeystrokeEvent) :
    rowCount (upsertKeystroke tbl e) (eventPair e)
      = rowCount tbl (eventPair e) + 1 := by
  simp [rowCount, upsert_at_pair]

theorem applyBatch_count (es : List KeystrokeEvent) (tbl : Table)
    (p : Nat × String) :
    rowCount (applyBatch tbl es) p
      = rowCount tbl p + (es.filter (matchesPair p)).length := by
  induction es generalizing tbl with
  | nil => simp [applyBatch]
  | cons e rest ih =>
    have hstep : applyBatch tbl (e :: rest) = applyBatch (upsertKeystroke tbl e) rest := rfl
    by_cases hm : eventPair e = p
    · have hf : (e :: rest).filter (matchesPair p)
          = e :: rest.filter (matchesPair p) := by
        simp [List.filter, matchesPair, hm]
      have hc : rowCount (upsertKeystroke tbl e) p = rowCount tbl p + 1 := by
        rw [← hm]; exact rowCount_upsert_self tbl e
      rw [hstep, ih, hc, hf]
      simp
      omega
    · have hf : (e :: rest).filter (matchesPair p)
          = rest.filter (matchesPair p) := by
        simp [List.filter, matchesPair, hm]
      have hc : upsertKeystroke tbl e p = tbl p :=
        upsert_at_other tbl e p (fun hp => hm hp.symm)
      have hc2 : rowCount (upsertKeystroke tbl e) p = rowCount tbl p := by
        unfold rowCount; rw [hc]
      rw [hstep, ih, hc2, hf]

theorem applyBatch_no_match (es : List KeystrokeEvent) (tbl : Table)
    (p : Nat × String) (h : ∀ e ∈ es, eventPair e ≠ p) :
    applyBatch tbl es p = tbl p := by
  induction es generalizing tbl with
  | nil => rfl
  | cons e rest ih =>
    have hstep : applyBatch tbl (e :: rest) = applyBatch (upsertKeystroke tbl e) rest := rfl
    have he : eventPair e ≠ p := h e (by simp)
    rw [hstep, ih _ (fun x hx => h x (by simp [hx])),
      upsert_at_other tbl e p (fun hp => he hp.symm)]

theorem applyBatch_last_writer (es : List KeystrokeEvent) (tbl : Table)
    (p : Nat × String) (lastEv : KeystrokeEvent)
    (h : (es.filter (matchesPair p)).getLast? = some lastEv) :
    applyBatch tbl es p
      = some (lastEv.key_name,
          rowCount tbl p + (es.filter (matchesPair p)).length) := by
  induction es generalizing tbl with
  | nil => simp at h
  | cons e rest ih =>
    have hstep : applyBatch tbl (e :: rest) = applyBatch (upsertKeystroke tbl e) rest := rfl
    by_cases hm : eventPair e = p
    · have hf : (e :: rest).filter (matchesPair p)
          = e :: rest.filter (matchesPair p) := by
        simp [List.filter, matchesPair, hm]
      have hc : rowCount (upsertKeystroke tbl e) p = rowCount tbl p + 1 := by
        rw [← hm]; exact rowCount_upsert_self tbl e
      rcases hrest : rest.filter (matchesPair p) with _ | ⟨e2, rest2⟩
      · have hnone : ∀ x ∈ rest, eventPair x ≠ p := by
          intro x hx
          have := List.filter_eq_nil_iff.mp hrest x hx
          simpa [matchesPair] using this
        have hval : applyBatch (upsertKeystroke tbl e) rest p
            = upsertKeystroke tbl e p := applyBatch_no_match rest _ p hnone
        have hlast : lastEv = e := by
          rw [hf, hrest] at h
          simpa using h.symm
        rw [hstep, hval, hf, hrest, hlast, ← hm, upsert_at_pair]
        simp
      · have hlast2 : ((e :: rest).filter (matchesPair p)).getLast?
            = (rest.filter (matchesPair p)).getLast? := by
          rw [hf, hrest]
          exact List.getLast?_cons_cons
        have h2 : (rest.filter (matchesPair p)).getLast? = some lastEv := by
          rw [← hlast2]; exact h
        have := ih (upsertKeystroke tbl e) h2
        rw [hstep, this, hc, hf]
        simp
        omega
    · have hf : (e :: rest).filter (matchesPair p)
          = rest.filter (matchesPair p) := by
        simp [List.filter, matchesPair, hm]
      have hc : upsertKeystroke tbl e p = tbl p :=
        upsert_at_other tbl e p (fun hp => hm hp.symm)
      have hc2 : rowCount (upsertKeystroke tbl e) p = rowCount tbl p := by
        unfold rowCount; rw [hc]
      have h2 : (rest.filter (matchesPair p)).getLast? = some lastEv := by
        rw [← hf]; exact h
      have := ih (upsertKeystroke tbl e) h2
      rw [hstep, this, hc2, hf]

theorem batch_insert_filter (es : List KeystrokeEvent)
    (stepOk : KeystrokeEvent → Bool) (tbl : Table) :
    db_execute_batch_insert stepOk tbl es = applyBatch tbl (es.filter stepOk) := by
  induction es generalizing tbl with
  | nil => rfl
  | cons e rest ih =>
    by_cases hs : stepOk e
    · have hf : (e :: rest).filter stepOk = e :: rest.filter stepOk := by
        simp [List.filter, hs]
      show db_execute_batch_insert stepOk
        (if stepOk e then upsertKeystroke tbl e else tbl) rest = _
      rw [hf, if_pos hs, ih]
      rfl
    · have hf : (e :: rest).filter stepOk = rest.filter stepOk := by
        simp [List.filter, hs]
      show db_execute_batch_insert stepOk
        (if stepOk e then upsertKeystroke tbl e else tbl) rest = _
      rw [hf, if_neg hs, ih]

theorem stmtExecLoop_error (es : List KeystrokeEvent)
    (stepOk : KeystrokeEvent → Bool) (tbl : Table)
    (h : ∃ e ∈ es, stepOk e = false) :
    ∃ msg, stmtExecLoop stepOk tbl es = Except.error msg := by
  induction es generalizing tbl with
  | nil => simp at h
  | cons e rest ih =>
    by_cases hs : stepOk e = true
    · rcases h with ⟨x, hx, hxf⟩
      rcases List.mem_cons.mp hx with hx1 | hx2
      · rw [hx1] at hxf; rw [hxf] at hs; cases hs
      · rcases ih (upsertKeystroke tbl e) ⟨x, hx2, hxf⟩ with ⟨msg, hm⟩
        refine ⟨msg, ?_⟩
        show (if stepOk e = true then
          stmtExecLoop stepOk (upsertKeystroke tbl e) rest
          else Except.error "Execution failed for batch UPSERT") = _
        rw [if_pos hs, hm]
    · refine ⟨"Execution failed for batch UPSERT", ?_⟩
      show (if stepOk e = true then
        stmtExecLoop stepOk (upsertKeystroke tbl e) rest
        else Except.error "Execution failed for batch UPSERT") = _
      rw [if_neg hs]

theorem writeToDatabase_table_unchanged (stepOk : KeystrokeEvent → Bool)
    (tbl : Table) (buffer : List KeystrokeEvent) :
    (writeToDatabase stepOk tbl buffer).table = tbl := by
  unfold writeToDatabase
  by_cases hb : buffer.isEmpty
  · simp [hb]
  · simp only [hb, Bool.false_eq_true, if_false]
    cases stmtExecLoop stepOk tbl buffer <;> rfl

theorem writeToDatabase_threw_of_step_failure (stepOk : KeystrokeEvent → Bool)
    (tbl : Table) (buffer : List KeystrokeEvent)
    (h : ∃ e ∈ buffer, stepOk e = false) :
    (writeToDatabase stepOk tbl buffer).threw = true := by
  have hne : ¬buffer.isEmpty := by
    rcases h with ⟨x, hx, _⟩
    cases buffer
    · simp at hx
    · simp
  rcases stmtExecLoop_error buffer stepOk tbl h with ⟨msg, hmsg⟩
  unfold writeToDatabase
  simp [hne, hmsg]

theorem db_init_buffer_of_ok (allocOk : Bool) (s : CBufferState)
    (h : (db_init_buffer allocOk s).2 = true) :
    (db_init_buffer allocOk s).1.bufAllocated = true
      ∧ ((db_init_buffer allocOk s).1.events = s.events
         ∨ (db_init_buffer allocOk s).1.events = []) := by
  unfold db_init_buffer at h ⊢
  by_cases ha : s.bufAllocated
  · simp [ha]
  · by_cases hk : allocOk
    · simp [ha, hk]
    · simp [ha, hk] at h

theorem db_init_buffer_of_fail (allocOk : Bool) (s : CBufferState)
    (h : (db_init_buffer allocOk s).2 = false) :
    (db_init_buffer allocOk s).1 = s := by
  unfold db_init_buffer at h ⊢
  by_cases ha : s.bufAllocated
  · simp [ha] at h
  · by_cases hk : allocOk
    · simp [ha, hk] at h
    · simp [ha, hk]

theorem check_flush_events_cases (force timedOut : Bool) (w : WriteOracle)
    (s : CBufferState) :
    (db_check_and_flush_buffer force timedOut w s).events = []
      ∨ (db_check_and_flush_buffer force timedOut w s).events = s.events := by
  unfold db_check_and_flush_buffer
  split
  · exact Or.inr rfl
  · split
    · exact Or.inl rfl
    · exact Or.inr rfl

theorem check_flush_length_lt (force timedOut : Bool) (w : WriteOracle)
    (s : CBufferState) (ha : s.bufAllocated = true) :
    (db_check_and_flush_buffer force timedOut w s).events.length
      < BUFFER_SIZE := by
  unfold db_check_and_flush_buffer
  split
  · rename_i hcond
    rw [ha] at hcond
    simp only [Bool.not_true, Bool.false_or] at hcond
    have : s.events = [] := by
      cases hv : s.events
      · rfl
      · rw [hv] at hcond; simp at hcond
    simp [this, BUFFER_SIZE]
  · split
    · simp [BUFFER_SIZE]
    · rename_i h1 h2
      have : ¬BUFFER_SIZE ≤ s.events.length := by
        intro hge
        exact h2 (by simp [hge])
      exact Nat.lt_of_not_le this

theorem db_add_state_length_lt (e : KeystrokeEvent)
    (allocOk timeOk timedOut : Bool) (w : WriteOracle) (s : CBufferState)
    (h : s.events.length < BUFFER_SIZE) :
    (db_add_to_buffer e allocOk timeOk timedOut w s).state.events.length
      < BUFFER_SIZE := by
  unfold db_add_to_buffer
  cases hinit : db_init_buffer allocOk s with
  | mk s1 initOk =>
    by_cases hio : initOk = true
    · have hspec0 := db_init_buffer_of_ok allocOk s (by rw [hinit]; exact hio)
      rw [hinit] at hspec0
      have hall : s1.bufAllocated = true := hspec0.1
      have hev : s1.events = s.events ∨ s1.events = [] := hspec0.2
      have hlt1 : s1.events.length < BUFFER_SIZE := by
        rcases hev with h1 | h1 <;> rw [h1]
        · exact h
        · simp [BUFFER_SIZE]
      by_cases ht : timeOk = true
      · by_cases hsz : s1.events.length < BUFFER_SIZE
        · simp only [hio, ht, hsz, Bool.not_true, Bool.false_eq_true, if_false,
            if_true]
          exact check_flush_length_lt false timedOut w _ hall
        · exact absurd hlt1 hsz
      · have ht2 : timeOk = false := by simpa using ht
        simp only [hio, ht2, Bool.not_true, Bool.not_false, Bool.false_eq_true,
          if_false, if_true]
        exact hlt1
    · have hio2 : initOk = false := by simpa using hio
      have heq : s1 = s := by
        have := db_init_buffer_of_fail allocOk s (by rw [hinit, hio2])
        rw [hinit] at this
        exact this
      simp only [hio2, Bool.not_false, if_true]
      rw [heq]
      exact h

theorem cbuffer_reach_length_lt (s : CBufferState) (h : CReach s) :
    s.events.length < BUFFER_SIZE := by
  induction h with
  | start t => simp [BUFFER_SIZE]
  | add e allocOk timeOk timedOut w hr ih =>
    exact db_add_state_length_lt e allocOk timeOk timedOut w _ ih
  | flush force timedOut w hr ih =>
    rename_i s0
    rcases check_flush_events_cases force timedOut w s0 with h1 | h1 <;> rw [h1]
    · simp [BUFFER_SIZE]
    · exact ih
  | cleanup timedOut w hr ih =>
    rename_i s0
    unfold db_cleanup_buffer
    by_cases ha : s0.bufAllocated <;> simp [ha, BUFFER_SIZE]
    exact ih
  | initBuf allocOk hr ih =>
    rename_i s0
    unfold db_init_buffer
    by_cases ha : s0.bufAllocated
    · simpa [ha] using ih
    · by_cases hk : allocOk <;> simp [ha, hk, BUFFER_SIZE]
      exact ih

theorem db_add_not_dropped (e : KeystrokeEvent)
    (allocOk timeOk timedOut : Bool) (w : WriteOracle) (s : CBufferState)
    (h : s.events.length < BUFFER_SIZE) :
    (db_add_to_buffer e allocOk timeOk timedOut w s).dropped = false := by
  unfold db_add_to_buffer
  cases hinit : db_init_buffer allocOk s with
  | mk s1 initOk =>
    by_cases hio : initOk = true
    · have hspec0 := db_init_buffer_of_ok allocOk s (by rw [hinit]; exact hio)
      rw [hinit] at hspec0
      have hlt : s1.events.length < BUFFER_SIZE := by
        rcases hspec0.2 with h1 | h1 <;> rw [h1]
        · exact h
        · simp [BUFFER_SIZE]
      by_cases ht : timeOk = true
      · simp [hio, ht, hlt]
      · have ht2 : timeOk = false := by simpa using ht
        simp [hio, ht2]
    · have hio2 : initOk = false := by simpa using hio
      simp [hio2]

/-- Claim C1: the claim states that every non-empty batch is written inside a
single transaction that is committed, so that the persisted count of a
`(scan_code, date)` pair equals the number of presses.  The C implementation
(`db_write_buffer_to_database`) does commit: one press of `KEY_A` yields the
row `(30, "2024-01-01") ↦ ("KEY_A", 1)`.  The C++ implementation
(`DatabaseManager::writeToDatabase`, `database.cpp`) constructs the RAII
`SQLite::Transaction` but never calls `transaction.commit()`, so the
destructor rolls the transaction back on every return path: after a
successful (non-throwing) write of the same batch the store still has no row
for the pair, and nothing is ever persisted. -/
theorem C1_cpp_write_never_commits :
    (writeToDatabase (fun _ => true) emptyTable [evA]).threw = false
    ∧ (writeToDatabase (fun _ => true) emptyTable [evA]).table pairA = none
    ∧ db_write_buffer_to_database allOk emptyTable [evA] pairA
        = some ("KEY_A", 1) := by
  refine ⟨rfl, rfl, ?_⟩
  show upsertKeystroke emptyTable evA pairA = some ("KEY_A", 1)
  rw [show pairA = eventPair evA from rfl, upsert_at_pair]
  rfl

/-- Claim C4 counterexample: the claim states that when one prepared-step
fails the batch write logs it, continues with the remaining events, and still
commits the successful rows.  In the C++ `DatabaseManager::writeToDatabase`
the first failing `stmt.exec()` throws, the loop is abandoned, and the
never-committed transaction is rolled back: for the batch
`[evA, evB, evC]` in which only the step for `evB` fails, the call throws
`DatabaseError` and neither the row of `evA` (which stepped before the
failure) nor the row of `evC` (never reached) is persisted. -/
theorem C4_cpp_step_failure_counterexample :
    (writeToDatabase stepNotB emptyTable [evA, evB, evC]).threw = true
    ∧ (writeToDatabase stepNotB emptyTable [evA, evB, evC]).table pairA = none
    ∧ (writeToDatabase stepNotB emptyTable [evA, evB, evC]).table
        (32, "2024-01-01") = none := by
  exact ⟨rfl, rfl, rfl⟩

/-- Claim C4, as amended: in the C implementation a failing step is logged
and skipped, the loop continues, and the committed result is exactly the
batch restricted to the events whose step succeeded; in the C++
implementation the first failing step throws `DatabaseError`, the remaining
events are not executed, and the rolled-back transaction leaves the store
unchanged. -/
theorem C4_step_failure_semantics :
    (∀ (stepOk : KeystrokeEvent → Bool) (tbl : Table)
       (events : List KeystrokeEvent),
       db_execute_batch_insert stepOk tbl events
         = applyBatch tbl (events.filter stepOk))
    ∧ (∀ (stepOk : KeystrokeEvent → Bool) (tbl : Table)
       (events : List KeystrokeEvent),
       db_write_buffer_to_database
           { openOk := true, beginOk := true, prepareOk := true,
             commitOk := true, stepOk := stepOk } tbl events
         = applyBatch tbl (events.filter stepOk))
    ∧ (∀ (stepOk : KeystrokeEvent → Bool) (tbl : Table)
       (buffer : List KeystrokeEvent),
       (∃ e ∈ buffer, stepOk e = false) →
       (writeToDatabase stepOk tbl buffer).table = tbl
       ∧ (writeToDatabase stepOk tbl buffer).threw = true) := by
  refine ⟨?_, ?_, ?_⟩
  · intro stepOk tbl events
    exact batch_insert_filter events stepOk tbl
  · intro stepOk tbl events
    unfold db_write_buffer_to_database
    by_cases hb : events.isEmpty
    · have : events = [] := by
        cases hv : events
        · rfl
        · rw [hv] at hb; simp at hb
      simp [hb, this, applyBatch]
    · simpa [hb] using batch_insert_filter events stepOk tbl
  · intro stepOk tbl buffer h
    exact ⟨writeToDatabase_table_unchanged stepOk tbl buffer,
      writeToDatabase_threw_of_step_failure stepOk tbl buffer h⟩

/-- Claim C4 witness: instantiation of the amended statement at the batch
`[evA, evB, evC]` with the step for `evB` failing. -/
theorem C4_step_failure_semantics_witness :
    db_execute_batch_insert stepNotB emptyTable [evA, evB, evC]
      = applyBatch emptyTable [evA, evC]
    ∧ (writeToDatabase stepNotB emptyTable [evA, evB, evC]).table = emptyTable
    ∧ (writeToDatabase stepNotB emptyTable [evA, evB, evC]).threw = true := by
  have h := C4_step_failure_semantics
  have hfil : [evA, evB, evC].filter stepNotB = [evA, evC] := by decide
  have h3 := h.2.2 stepNotB emptyTable [evA, evB, evC]
    ⟨evB, by decide, by decide⟩
  exact ⟨by rw [h.1 stepNotB emptyTable [evA, evB, evC], hfil], h3.1, h3.2⟩

/-- Claim C5: for the upsert statement `UPSERT_KEYSTROKE_SQL` (identical in
`sql.h` and `sql.hpp`), a single execution for an event inserts
`count = 1` on the first occurrence of its `(scan_code, date)` pair and
otherwise increments the existing count by exactly 1, always overwriting
`key_name` with the just-observed name; consequently, over a whole batch,
the resulting row of a pair carries the `key_name` of the last event of the
batch with that pair, and its count grows by the number of matching
events. -/
theorem C5_upsert_last_writer_wins :
    (∀ (tbl : Table) (e : KeystrokeEvent),
       upsertKeystroke tbl e (eventPair e)
         = some (e.key_name, rowCount tbl (eventPair e) + 1))
    ∧ (∀ (tbl : Table) (es : List KeystrokeEvent) (p : Nat × String)
       (lastEv : KeystrokeEvent),
       (es.filter (matchesPair p)).getLast? = some lastEv →
       applyBatch tbl es p
         = some (lastEv.key_name,
             rowCount tbl p + (es.filter (matchesPair p)).length)) := by
  exact ⟨fun tbl e => upsert_at_pair tbl e,
    fun tbl es p lastEv h => applyBatch_last_writer es tbl p lastEv h⟩

/-- Claim C5 witness: the name-evolution scenario of the spec — a batch
pressing scan code 30 as `KEY_A` and then as `OTHER_NAME` on the same date
yields the row `("OTHER_NAME", 2)`, and a single upsert of `evA` into the
fresh store yields `("KEY_A", 1)`. -/
theorem C5_upsert_last_writer_wins_witness :
    upsertKeystroke emptyTable evA (eventPair evA) = some ("KEY_A", 1)
    ∧ applyBatch emptyTable [evA, evA2] pairA = some ("OTHER_NAME", 2) := by
  have h := C5_upsert_last_writer_wins
  constructor
  · have := h.1 emptyTable evA
    rw [this]
    rfl
  · have hlast : ([evA, evA2].filter (matchesPair pairA)).getLast?
        = some evA2 := by decide
    have := h.2 emptyTable [evA, evA2] pairA evA2 hlast
    rw [this]
    rfl

/-- Claim C2 counterexample: the claim states that a failed flush callback
still clears the pending buffer and does not terminate the event loop.  In
the C++ `EventHandler::flushBuffer` the callback is invoked before
`buffer.clear()`, so a throwing callback (here: `writeToDatabase` over a
store on which every step fails) leaves the buffer uncleared and the
exception propagates; the `while (true)` loop of `Cli::run` has no handler,
so the loop terminates (the exception is caught only in `main`, which
exits). -/
theorem C2_cpp_flush_failure_counterexample :
    (flushBuffer true (fun _ => false)
        { buffer := [evA], table := emptyTable }).1.buffer = [evA]
    ∧ (flushBuffer true (fun _ => false)
        { buffer := [evA], table := emptyTable }).2 = true
    ∧ (runTicks true [failTick]
        { buffer := [evA], table := emptyTable }).2 = true := by
  exact ⟨rfl, rfl, rfl⟩

/-- Claim C2, as amended: in the C implementation a forced or triggered flush
clears the buffer unconditionally — `db_write_buffer_to_database` reports no
error to its caller and `db_check_and_flush_buffer` resets the count on
every oracle outcome — and the loop continues.  In the C++ implementation a
throwing flush callback leaves the buffer uncleared (the exception is raised
before `buffer.clear()`), the exception escapes `flushBuffer`, and any tick
of `Cli::run` whose `trace` throws terminates the loop. -/
theorem C2_flush_failure_behavior :
    (∀ (timedOut : Bool) (w : WriteOracle) (s : CBufferState),
       s.bufAllocated = true → s.events ≠ [] →
       (db_check_and_flush_buffer true timedOut w s).events = [])
    ∧ (∀ (stepOk : KeystrokeEvent → Bool) (s : EHState),
       s.buffer ≠ [] →
       (writeToDatabase stepOk s.table s.buffer).threw = true →
       (flushBuffer true stepOk s).1.buffer = s.buffer
       ∧ (flushBuffer true stepOk s).2 = true)
    ∧ (∀ (callbackSet : Bool) (i : TickInput) (rest : List TickInput)
       (s : EHState),
       (trace i.pollReady i.timedOut i.dateNow i.evs callbackSet i.stepOk s).2
         = true →
       (runTicks callbackSet (i :: rest) s).2 = true) := by
  refine ⟨?_, ?_, ?_⟩
  · intro timedOut w s ha hne
    unfold db_check_and_flush_buffer
    rw [ha]
    have hemp : s.events.isEmpty = false := by
      cases hv : s.events
      · exact absurd hv hne
      · rfl
    simp [hemp]
  · intro stepOk s hne hthrew
    have hemp : s.buffer.isEmpty = false := by
      cases hv : s.buffer
      · exact absurd hv hne
      · rfl
    unfold flushBuffer
    simp [hemp, hthrew]
  · intro callbackSet i rest s hthrew
    simp [runTicks, hthrew]

/-- Claim C2 witness: instantiation of the amended statement at a one-event
buffer — the C layer clears it on a forced flush, and the C++ layer keeps it
and throws when every step fails. -/
theorem C2_flush_failure_behavior_witness :
    (db_check_and_flush_buffer true false allOk
        { bufAllocated := true, events := [evA], table := emptyTable }).events
      = []
    ∧ (flushBuffer true (fun _ => false)
        { buffer := [evA], table := emptyTable }).1.buffer = [evA]
    ∧ (runTicks true [failTick] { buffer := [evA], table := emptyTable }).2
      = true := by
  have h := C2_flush_failure_behavior
  refine ⟨h.1 false allOk _ rfl (by decide), ?_, ?_⟩
  · exact (h.2.1 (fun _ => false) { buffer := [evA], table := emptyTable }
      (by decide) rfl).1
  · exact h.2.2 true failTick []
      { buffer := [evA], table := emptyTable } rfl

/-- Claim C3 counterexample: the claim states that the number of pending
events never exceeds `BUFFER_SIZE` immediately after any push returns.  In
the C++ `EventHandler::trace` the drain loop pushes every available keyboard
event before `shouldFlush` is evaluated once, so when 51 PRESSED keyboard
events are drained in one tick the buffer holds 51 > `BUFFER_SIZE` events
immediately after the 51st push returns. -/
theorem C3_cpp_buffer_exceeds_counterexample :
    (tracePushes "2024-01-01"
        (List.replicate 51 (LibinputEvent.keyboardKey pressedA)) []).length
      = 51
    ∧ BUFFER_SIZE < 51 := by
  exact ⟨by decide, by decide⟩

/-- Claim C3, as amended: in the C buffering layer the pending count is at
most `BUFFER_SIZE` at every observation point (in fact strictly below it
after every public call returns), and with `force_flush = false` a non-empty
allocated buffer is flushed exactly when the count is at least `BUFFER_SIZE`
or the timeout elapsed; the C++ `shouldFlush` tests exactly the claimed
predicate, but `trace` evaluates it only once per tick, after draining all
events, so the C++ buffer can exceed `BUFFER_SIZE` between pushes of a
single tick. -/
theorem C3_buffer_invariants :
    (∀ s : CBufferState, CReach s → s.events.length ≤ BUFFER_SIZE)
    ∧ (∀ (timedOut : Bool) (w : WriteOracle) (s : CBufferState),
       s.bufAllocated = true → s.events ≠ [] →
       ((db_check_and_flush_buffer false timedOut w s).events = []
         ↔ (BUFFER_SIZE ≤ s.events.length ∨ timedOut = true)))
    ∧ (∀ (timedOut : Bool) (buffer : List KeystrokeEvent),
       shouldFlush timedOut buffer = true
         ↔ (BUFFER_SIZE ≤ buffer.length
             ∨ (buffer ≠ [] ∧ timedOut = true))) := by
  refine ⟨?_, ?_, ?_⟩
  · intro s h
    exact Nat.le_of_lt (cbuffer_reach_length_lt s h)
  · intro timedOut w s ha hne
    have hemp : s.events.isEmpty = false := by
      cases hv : s.events
      · exact absurd hv hne
      · rfl
    unfold db_check_and_flush_buffer
    rw [ha]
    simp only [hemp, Bool.not_true, Bool.false_or, Bool.false_eq_true,
      if_false]
    constructor
    · intro hflu
      by_cases hcond :
          (decide (BUFFER_SIZE ≤ s.events.length) || timedOut) = true
      · simpa using hcond
      · rw [if_neg hcond] at hflu
        exact absurd hflu hne
    · intro hor
      have hcond :
          (decide (BUFFER_SIZE ≤ s.events.length) || timedOut) = true := by
        rcases hor with h1 | h1 <;> simp [h1]
      rw [if_pos hcond]
  · intro timedOut buffer
    unfold shouldFlush
    by_cases hsz : BUFFER_SIZE ≤ buffer.length
    · simp [hsz]
    · rw [if_neg hsz]
      cases buffer with
      | nil => simp [BUFFER_SIZE]
      | cons a l =>
        simp only [List.isEmpty_cons, Bool.not_false, if_true]
        constructor
        · intro ht
          exact Or.inr ⟨by simp, ht⟩
        · intro hor
          rcases hor with h1 | h1
          · exact absurd h1 hsz
          · exact h1.2

/-- Claim C3 witness: instantiation of the amended statement — a freshly
allocated buffer satisfies the bound, a 1-event buffer flushes on timeout
and keeps its event otherwise, and `shouldFlush` holds on timeout. -/
theorem C3_buffer_invariants_witness :
    ({ bufAllocated := true, events := [], table := emptyTable }
        : CBufferState).events.length ≤ BUFFER_SIZE
    ∧ (db_check_and_flush_buffer false true allOk
        { bufAllocated := true, events := [evA], table := emptyTable }).events
      = []
    ∧ shouldFlush true [evA] = true := by
  have h := C3_buffer_invariants
  refine ⟨h.1 _ (CReach.start emptyTable), ?_, ?_⟩
  · exact (h.2.1 true allOk
      { bufAllocated := true, events := [evA], table := emptyTable }
      rfl (by decide)).mpr (Or.inr rfl)
  · exact (h.2.2 true [evA]).mpr (Or.inr ⟨by decide, rfl⟩)

/-- Claim C10: starting from an allocated buffer, every state reachable
through the public entry points of the C buffering layer keeps
`buffer_count` strictly below `BUFFER_SIZE`, so on entry to
`db_add_to_buffer` the `else` branch that would flush without storing the
incoming keystroke is unreachable: the add never discards the pressed
key. -/
theorem C10_no_keystroke_dropped (s : CBufferState) (h : CReach s)
    (e : KeystrokeEvent) (allocOk timeOk timedOut : Bool) (w : WriteOracle) :
    s.events.length < BUFFER_SIZE
    ∧ (db_add_to_buffer e allocOk timeOk timedOut w s).dropped = false := by
  have hlt := cbuffer_reach_length_lt s h
  exact ⟨hlt, db_add_not_dropped e allocOk timeOk timedOut w s hlt⟩

/-- Claim C10 witness: instantiation at the freshly allocated buffer with a
concrete keystroke and oracles. -/
theorem C10_no_keystroke_dropped_witness :
    ({ bufAllocated := true, events := [], table := emptyTable }
        : CBufferState).events.length < BUFFER_SIZE
    ∧ (db_add_to_buffer evA true true false allOk
        { bufAllocated := true, events := [], table := emptyTable }).dropped
      = false := by
  exact C10_no_keystroke_dropped _ (CReach.start emptyTable) evA true true
    false allOk

/-- Claim C6: the claim (with the spec) states that the installed signal
handler only flips the atomic `running` flag and returns, never performing
database I/O inside the handler.  In `signal_handler` of `main.c` the first
delivery of SIGINT/SIGTERM calls `db_check_and_flush_buffer(true)` — a
forced flush that opens SQLite and writes the batch — from inside the
handler, before setting `running = false`; the latch makes a second delivery
a no-op; and the flush `run_event_loop` performs after the loop exits is the
non-forced `db_check_and_flush_buffer(false)`, which leaves a small
non-timed-out buffer in place (by then the handler has already flushed). -/
theorem C6_signal_handler_performs_db_flush :
    (signal_handler false allOk
        { s_exiting := false, running := true,
          buf := { bufAllocated := true, events := [evA],
                   table := emptyTable } }).2
      = [HandlerAction.printMessage, HandlerAction.dbFlush,
         HandlerAction.setRunningFalse]
    ∧ HandlerAction.dbFlush ∈ (signal_handler false allOk
        { s_exiting := false, running := true,
          buf := { bufAllocated := true, events := [evA],
                   table := emptyTable } }).2
    ∧ (signal_handler false allOk
        { s_exiting := false, running := true,
          buf := { bufAllocated := true, events := [evA],
                   table := emptyTable } }).1.running = false
    ∧ (signal_handler false allOk ((signal_handler false allOk
        { s_exiting := false, running := true,
          buf := { bufAllocated := true, events := [evA],
                   table := emptyTable } }).1)).2 = []
    ∧ run_event_loop_final_flush false allOk
        { bufAllocated := true, events := [evA], table := emptyTable }
      = { bufAllocated := true, events := [evA], table := emptyTable } := by
  refine ⟨rfl, ?_, rfl, rfl, rfl⟩
  show HandlerAction.dbFlush ∈ [HandlerAction.printMessage,
    HandlerAction.dbFlush, HandlerAction.setRunningFalse]
  simp

/-- Claim C7 counterexample: the claim states that resolution falls back to
`${HOME}/.local/share/typetrace/TypeTrace.db` whenever `HOME` is set and
fails only when neither variable is set.  The C `paths_resolve_db_path`
fails when `HOME` is set to the empty string (set but empty counts as
unset), and the C++ `Cli::getDatabaseDir` takes the `XDG_DATA_HOME` branch
whenever the variable is set — even empty — yielding the relative directory
`typetrace` instead of the `HOME`-based path. -/
theorem C7_path_resolution_counterexample :
    paths_resolve_db_path none (some "") = none
    ∧ getDatabaseDir (some "") (some "/home/user") = some "typetrace" := by
  exact ⟨rfl, rfl⟩

/-- Claim C7, as amended: the C resolver returns
`XDG_DATA_HOME/typetrace/TypeTrace.db` when `XDG_DATA_HOME` is set and
non-empty, falls back to `HOME/.local/share/typetrace/TypeTrace.db` when
`HOME` is set and non-empty, and fails when both are unset or empty (for
values fitting the path buffer); the C++ resolver uses `XDG_DATA_HOME`
whenever it is set, even empty, uses `HOME` otherwise whenever it is set,
even empty, and fails only when both are unset.  Both are pure functions of
the two environment variables. -/
theorem C7_path_resolution_behavior :
    (∀ (d : String) (home : Option String), d ≠ "" → d.length ≤ 4000 →
       paths_resolve_db_path (some d) home
         = some (d ++ "/" ++ PROJECT_DIR_NAME ++ "/" ++ DB_FILE_NAME))
    ∧ (∀ (xdg : Option String) (h : String),
       (xdg = none ∨ xdg = some "") → h ≠ "" → h.length ≤ 4000 →
       paths_resolve_db_path xdg (some h)
         = some (h ++ "/.local/share" ++ "/" ++ PROJECT_DIR_NAME ++ "/"
             ++ DB_FILE_NAME))
    ∧ (∀ (xdg home : Option String),
       (xdg = none ∨ xdg = some "") → (home = none ∨ home = some "") →
       paths_resolve_db_path xdg home = none)
    ∧ (∀ (d : String) (home : Option String),
       getDatabaseDir (some d) home = some (pathAppend d PROJECT_DIR_NAME))
    ∧ (∀ h : String, getDatabaseDir none (some h)
         = some (pathAppend (pathAppend (pathAppend h ".local") "share")
             PROJECT_DIR_NAME))
    ∧ getDatabaseDir none none = none := by
  have hsl : ("/" : String).length = 1 := rfl
  have hpl : PROJECT_DIR_NAME.length = 9 := rfl
  have hdl : DB_FILE_NAME.length = 12 := rfl
  have hone : ∀ d : String, d.length ≤ 4000 →
      dataDirToPath (some d)
        = some (d ++ "/" ++ PROJECT_DIR_NAME ++ "/" ++ DB_FILE_NAME) := by
    intro d hlen
    have hlt : (d ++ "/" ++ PROJECT_DIR_NAME ++ "/" ++ DB_FILE_NAME).length
        < MAX_PATH_LENGTH := by
      simp only [String.length_append, hsl, hpl, hdl]
      unfold MAX_PATH_LENGTH
      omega
    show (if (d ++ "/" ++ PROJECT_DIR_NAME ++ "/" ++ DB_FILE_NAME).length
        < MAX_PATH_LENGTH
      then some (d ++ "/" ++ PROJECT_DIR_NAME ++ "/" ++ DB_FILE_NAME)
      else none) = _
    rw [if_pos hlt]
  have hfb : ∀ h : String, h ≠ "" →
      homeFallback (some h) = some (h ++ "/.local/share") := by
    intro h hne
    show (if h ≠ "" then some (h ++ "/.local/share") else none) = _
    rw [if_pos hne]
  refine ⟨?_, ?_, ?_, ?_, ?_, rfl⟩
  · intro d home hne hlen
    show (if d ≠ "" then dataDirToPath (some d)
      else dataDirToPath (homeFallback home)) = _
    rw [if_pos hne, hone d hlen]
  · intro xdg h hx hne hlen
    have hlen2 : (h ++ "/.local/share").length ≤ 4000 + 13 := by
      have h13 : ("/.local/share" : String).length = 13 := rfl
      simp only [String.length_append, h13]
      omega
    have hres : dataDirToPath (homeFallback (some h))
        = some (h ++ "/.local/share" ++ "/" ++ PROJECT_DIR_NAME ++ "/"
            ++ DB_FILE_NAME) := by
      rw [hfb h hne]
      have hlt : ((h ++ "/.local/share") ++ "/" ++ PROJECT_DIR_NAME ++ "/"
          ++ DB_FILE_NAME).length < MAX_PATH_LENGTH := by
        have h13 : ("/.local/share" : String).length = 13 := rfl
        simp only [String.length_append, hsl, hpl, hdl, h13]
        unfold MAX_PATH_LENGTH
        omega
      show (if ((h ++ "/.local/share") ++ "/" ++ PROJECT_DIR_NAME ++ "/"
          ++ DB_FILE_NAME).length < MAX_PATH_LENGTH
        then some ((h ++ "/.local/share") ++ "/" ++ PROJECT_DIR_NAME ++ "/"
          ++ DB_FILE_NAME)
        else none) = _
      rw [if_pos hlt]
    rcases hx with hx | hx <;> subst hx
    · exact hres
    · show (if ("" : String) ≠ "" then dataDirToPath (some "")
        else dataDirToPath (homeFallback (some h))) = _
      rw [if_neg (by simp), hres]
  · intro xdg home hx hh
    rcases hx with hx | hx <;> rcases hh with hh | hh <;> subst hx <;> subst hh
      <;> rfl
  · intro d home
    rfl
  · intro h
    rfl

/-- Claim C7 witness: instantiation of the amended statement at concrete
environments. -/
theorem C7_path_resolution_behavior_witness :
    paths_resolve_db_path (some "/xdg") (some "/home/user")
      = some ("/xdg" ++ "/" ++ PROJECT_DIR_NAME ++ "/" ++ DB_FILE_NAME)
    ∧ paths_resolve_db_path none (some "/home/user")
      = some ("/home/user" ++ "/.local/share" ++ "/" ++ PROJECT_DIR_NAME
          ++ "/" ++ DB_FILE_NAME)
    ∧ paths_resolve_db_path (some "") none = none
    ∧ getDatabaseDir (some "/xdg") none
      = some (pathAppend "/xdg" PROJECT_DIR_NAME) := by
  have h := C7_path_resolution_behavior
  exact ⟨h.1 "/xdg" (some "/home/user") (by decide) (by decide),
    h.2.1 none "/home/user" (Or.inl rfl) (by decide) (by decide),
    h.2.2.1 (some "") none (Or.inr rfl) (Or.inl rfl),
    h.2.2.2.1 "/xdg" none⟩

/-- Claim C8 counterexample: the claim states that the device-accessibility
check succeeds only when at least one drained DEVICE_ADDED device is
keyboard-capable.  The C++ `EventHandler::checkDeviceAccessibility` takes a
single event from the queue and succeeds whenever its type is DEVICE_ADDED,
never inspecting the KEYBOARD capability: it accepts a queue whose only
device is not a keyboard. -/
theorem C8_cpp_accessibility_counterexample :
    checkDeviceAccessibility true true [LibinputEvent.deviceAdded false]
      = Except.ok ()
    ∧ isKeyboardAdded (LibinputEvent.deviceAdded false) = false := by
  exact ⟨rfl, rfl⟩

/-- Claim C8, as amended: the C `perm_check_device_accessibility` behaves as
claimed — with a valid context and successful dispatch it returns `OK`
exactly when some drained DEVICE_ADDED device is keyboard-capable and
`NO_DEVICES_ERROR` exactly otherwise (covering both no devices at all and
devices without the KEYBOARD capability), and a failed dispatch returns
`LIBINPUT_FAILED` — while the C++ `checkDeviceAccessibility` succeeds
exactly when the first drained event is DEVICE_ADDED, regardless of
capability. -/
theorem C8_device_check_behavior :
    (∀ evs : List LibinputEvent,
       perm_check_device_accessibility true true evs = OK
         ↔ evs.any isKeyboardAdded = true)
    ∧ (∀ evs : List LibinputEvent,
       perm_check_device_accessibility true true evs = NO_DEVICES_ERROR
         ↔ evs.any isKeyboardAdded = false)
    ∧ (∀ evs : List LibinputEvent,
       perm_check_device_accessibility true false evs = LIBINPUT_FAILED)
    ∧ (∀ evs : List LibinputEvent,
       checkDeviceAccessibility true true evs = Except.ok ()
         ↔ ∃ cap, evs.head? = some (LibinputEvent.deviceAdded cap)) := by
  have himp : ∀ evs : List LibinputEvent,
      evs.any isKeyboardAdded = true → evs.any isDeviceAdded = true := by
    intro evs h
    rw [List.any_eq_true] at h ⊢
    rcases h with ⟨x, hx, hk⟩
    refine ⟨x, hx, ?_⟩
    cases x with
    | deviceAdded cap => rfl
    | keyboardKey k => exact absurd hk (by simp [isKeyboardAdded])
    | other => exact absurd hk (by simp [isKeyboardAdded])
  refine ⟨?_, ?_, ?_, ?_⟩
  · intro evs
    by_cases hk : evs.any isKeyboardAdded = true
    · have hd := himp evs hk
      simp [perm_check_device_accessibility, hd, hk, OK]
    · have hk2 : evs.any isKeyboardAdded = false := by simpa using hk
      by_cases hd : evs.any isDeviceAdded = true
      · simp [perm_check_device_accessibility, hd, hk2, OK,
          NO_DEVICES_ERROR]
      · have hd2 : evs.any isDeviceAdded = false := by simpa using hd
        simp [perm_check_device_accessibility, hd2, hk2, OK,
          NO_DEVICES_ERROR]
  · intro evs
    by_cases hk : evs.any isKeyboardAdded = true
    · have hd := himp evs hk
      simp [perm_check_device_accessibility, hd, hk, NO_DEVICES_ERROR, OK]
    · have hk2 : evs.any isKeyboardAdded = false := by simpa using hk
      by_cases hd : evs.any isDeviceAdded = true
      · simp [perm_check_device_accessibility, hd, hk2, NO_DEVICES_ERROR]
      · have hd2 : evs.any isDeviceAdded = false := by simpa using hd
        simp [perm_check_device_accessibility, hd2, hk2, NO_DEVICES_ERROR]
  · intro evs
    rfl
  · intro evs
    cases hh : evs.head? with
    | none => simp [checkDeviceAccessibility, hh]
    | some ev =>
      cases ev with
      | deviceAdded cap => simp [checkDeviceAccessibility, hh]
      | keyboardKey k => simp [checkDeviceAccessibility, hh]
      | other => simp [checkDeviceAccessibility, hh]

/-- Claim C8 witness: instantiation of the amended statement at concrete
event queues. -/
theorem C8_device_check_behavior_witness :
    perm_check_device_accessibility true true
        [LibinputEvent.deviceAdded true] = OK
    ∧ perm_check_device_accessibility true true
        [LibinputEvent.deviceAdded false] = NO_DEVICES_ERROR
    ∧ perm_check_device_accessibility true true ([] : List LibinputEvent)
      = NO_DEVICES_ERROR
    ∧ checkDeviceAccessibility true true [LibinputEvent.deviceAdded false]
      = Except.ok () := by
  have h := C8_device_check_behavior
  refine ⟨(h.1 [LibinputEvent.deviceAdded true]).mpr (by decide),
    (h.2.1 [LibinputEvent.deviceAdded false]).mpr (by decide),
    (h.2.1 ([] : List LibinputEvent)).mpr (by decide),
    (h.2.2.2 [LibinputEvent.deviceAdded false]).mpr ⟨false, rfl⟩⟩

/-- Claim C9 counterexample: the claim states that `-h`/`--help` and
`-v`/`--version` terminate the process with exit status 0.  In the C backend
`process_arguments` returns `INFORMATION_EXIT` for `-h`, and `main` returns
that value as the process exit status: the status is 8, not 0 (the C++
CLI does call `std::exit(0)`). -/
theorem C9_c_backend_nonzero_exit_counterexample :
    process_arguments [COpt.optH] 0 = (INFORMATION_EXIT, false)
    ∧ main_exit_on_args [COpt.optH] 0 = some 8
    ∧ main_exit_on_args [COpt.optH] 0 ≠ some 0
    ∧ parseArguments ["-h"] false = ParseOutcome.exitWith 0 := by
  exact ⟨rfl, rfl, by decide, rfl⟩

/-- Claim C9, as amended: `-h`/`--help` and `-v`/`--version` print the
usage/version text and stop argument processing at once; the C++
`Cli::parseArguments` terminates the process with exit status 0, while the C
backend returns `INFORMATION_EXIT` (= 8) from `process_arguments`, which
`main` propagates as a non-zero process exit status. -/
theorem C9_help_version_exit_behavior :
    (∀ (rest : List String) (dbg : Bool),
       parseArguments ("-h" :: rest) dbg = ParseOutcome.exitWith 0
       ∧ parseArguments ("--help" :: rest) dbg = ParseOutcome.exitWith 0
       ∧ parseArguments ("-v" :: rest) dbg = ParseOutcome.exitWith 0
       ∧ parseArguments ("--version" :: rest) dbg = ParseOutcome.exitWith 0)
    ∧ (∀ (rest : List COpt) (dbg : Bool) (npos : Nat),
       process_arguments_loop (COpt.optH :: rest) dbg npos
         = (INFORMATION_EXIT, dbg)
       ∧ process_arguments_loop (COpt.optV :: rest) dbg npos
         = (INFORMATION_EXIT, dbg))
    ∧ (∀ (rest : List COpt) (npos : Nat),
       main_exit_on_args (COpt.optH :: rest) npos = some INFORMATION_EXIT
       ∧ main_exit_on_args (COpt.optV :: rest) npos = some INFORMATION_EXIT
       ∧ INFORMATION_EXIT ≠ 0) := by
  refine ⟨?_, ?_, ?_⟩
  · intro rest dbg
    exact ⟨rfl, rfl, rfl, rfl⟩
  · intro rest dbg npos
    exact ⟨rfl, rfl⟩
  · intro rest npos
    exact ⟨rfl, rfl, by decide⟩

/-- Claim C9 witness: instantiation of the amended statement at concrete
command lines. -/
theorem C9_help_version_exit_behavior_witness :
    parseArguments ["--version"] false = ParseOutcome.exitWith 0
    ∧ process_arguments_loop [COpt.optV] false 0 = (INFORMATION_EXIT, false)
    ∧ main_exit_on_args [COpt.optV] 0 = some INFORMATION_EXIT := by
  have h := C9_help_version_exit_behavior
  exact ⟨(h.1 [] false).2.2.2, (h.2.1 [] false 0).2, (h.2.2 [] 0).2.1⟩

end TypeTrace
